import Mathlib

/-!
Verification development for the mTLS identity layer of the ztunnel proxy
(`src/tls.rs`, `src/tls/openssl.rs`), as a shallow embedding in Lean 4.

Modelling conventions:
holding `SystemTime` values are modelled as `Nat` nanoseconds since the epoch,
`Duration` values as `Nat` nanoseconds; `Duration` division by 2 is exact at
nanosecond precision, modelled by `Nat` division.  ASN.1 times have only
second granularity, modelled by truncation to seconds.  Opaque engine handles
(`ErrorStack`, `openssl::ssl::Error`, `X509VerifyResult`, `Ssl` session
objects, `TcpStream`) are modelled as `Nat`; byte strings (DER and PEM
encodings) are modelled as `List Nat`.  `SystemTime::now()` is passed as an
explicit `now` argument.  Fallible Rust functions returning `Result` become
`Except`; a Rust panic (out-of-bounds index) is modelled as `Option.none` of
an outer `Option`.
-/

namespace Ztunnel

/-- Nanoseconds per second, for the sub-second precision model of
`SystemTime` and `Duration`. -/
def nanosPerSec : Nat := 1000000000

/-- Model of `system_time_to_asn1_time`: ASN.1 time has only second
granularity, so the conversion truncates the nanosecond timestamp to whole
seconds. -/
def system_time_to_asn1_time (t : Nat) : Nat := t / nanosPerSec

/-- Model of `asn1_time_to_system_time`: an ASN.1 time (whole seconds)
converted back to a `SystemTime` (nanoseconds). -/
def asn1_time_to_system_time (t : Nat) : Nat := t * nanosPerSec

/-- Opaque workload identity (external capability per the module interface):
value equality, displayed as its URI string.  Parsing is a capability
parameter `parse : String → Option Identity` wherever the code calls
`Identity::from_str`. -/
structure Identity where
  uri : String
deriving DecidableEq

/-- One X.509 Subject Alternative Name entry (`openssl GeneralName`): the
code only distinguishes whether the entry is URI-form. -/
inductive GeneralName where
  | uriName (u : String)
  | ipName (a : String)
  | dnsName (d : String)
deriving DecidableEq

/-- Model of `GeneralName::uri()`: `some` exactly for URI-form SANs. -/
def GeneralName.uri : GeneralName → Option String
  | .uriName u => Option.some u
  | _ => Option.none

/-- Model of an `openssl X509` certificate handle: its DER and PEM encodings,
the DER encoding of its public key (for `check_private_key`), its SAN
extension (`subject_alt_names()` returns an optional stack), and its encoded
ASN.1 validity bounds (second granularity). -/
structure X509 where
  der : List Nat
  pem : List Nat
  pubkeyDer : List Nat
  subject_alt_names : Option (List GeneralName)
  notBeforeAsn1 : Nat
  notAfterAsn1 : Nat
deriving DecidableEq

/-- Model of an `openssl PKey<Private>` handle: the DER encoding of the
private key (`private_key_to_der`) and of its public component. -/
structure PKey where
  der : List Nat
  pubDer : List Nat
deriving DecidableEq

/-- `ZtunnelCert`: wrapper around `X509` that carries full-precision
`SystemTime` validity bounds, fixed at construction. -/
structure ZtunnelCert where
  x509 : X509
  not_before : Nat
  not_after : Nat
deriving DecidableEq

/-- `ZtunnelCert::new`: derives the timestamps from the certificate's ASN.1
fields (hence at second granularity). -/
def ZtunnelCert.new (cert : X509) : ZtunnelCert :=
  { not_before := asn1_time_to_system_time cert.notBeforeAsn1
    not_after := asn1_time_to_system_time cert.notAfterAsn1
    x509 := cert }

/-- `Certs`: the certificate bundle — leaf certificate, the remainder of the
chain (not including the leaf), and the private key. -/
structure Certs where
  cert : ZtunnelCert
  chain : List ZtunnelCert
  key : PKey
deriving DecidableEq

/-- Model of `impl PartialEq for Certs`: leaf DER encoding, private-key DER
encoding and both validity bounds are compared; the chain is not. -/
def Certs.eq (a b : Certs) : Bool :=
  a.cert.x509.der == b.cert.x509.der
    && a.key.der == b.key.der
    && a.cert.not_after == b.cert.not_after
    && a.cert.not_before == b.cert.not_before

/-- Model of `Certs::chain`: `Ok(self.chain[0].x509.to_pem()?.into())`.
The unguarded index `self.chain[0]` panics on an empty chain; the panic is
modelled by `Option.none` (PEM encoding of an in-memory certificate is
modelled as total, so the `Result` error path does not arise). -/
def Certs.chain_pem (c : Certs) : Option (List Nat) :=
  c.chain.head?.map (fun z => z.x509.pem)

/-- Model of `Certs::iter_chain`: every chain entry, in order. -/
def Certs.iter_chain (c : Certs) : List X509 :=
  c.chain.map (fun z => z.x509)

/-- Model of `Certs::is_expired` with `SystemTime::now()` passed as `now`. -/
def Certs.is_expired (c : Certs) (now : Nat) : Bool :=
  decide (now > c.cert.not_after)

/-- Model of `Certs::refresh_at`: `not_after.duration_since(not_before)` is
`Ok` exactly when `not_before <= not_after`. -/
def Certs.refresh_at (c : Certs) : Nat :=
  if c.cert.not_before ≤ c.cert.not_after then
    c.cert.not_before + (c.cert.not_after - c.cert.not_before) / 2
  else
    c.cert.not_after

/-- The halflife computed inside `Certs::get_duration_until_refresh`:
`not_after.duration_since(not_before).unwrap_or(0) / 2` (the failed
`duration_since` case coincides with truncated `Nat` subtraction). -/
def Certs.halflife (c : Certs) : Nat :=
  (c.cert.not_after - c.cert.not_before) / 2

/-- Model of `Certs::get_duration_until_refresh` with `SystemTime::now()`
passed as `now`: `elapsed = now.duration_since(not_before).unwrap_or(halflife)`
and the result is `halflife.checked_sub(elapsed).unwrap_or(0)` (truncated
`Nat` subtraction). -/
def Certs.get_duration_until_refresh (c : Certs) (now : Nat) : Nat :=
  c.halflife -
    (if c.cert.not_before ≤ now then now - c.cert.not_before else c.halflife)

/-- Short-circuiting collection of a list of fallible results: the model of
`collect::<Result<Vec<_>, _>>()` — the first failure makes the whole
collection fail. -/
def collectList {α : Type} : List (Option α) → Option (List α)
  | [] => Option.some []
  | Option.none :: _ => Option.none
  | Option.some a :: rest => (collectList rest).map (fun l => a :: l)

/-- Model of `extract_sans`: the URI-form SANs of the certificate
(`subject_alt_names()` is an optional stack, iterated and flattened,
`filter_map` on `uri()`), each parsed with the Identity capability
(`Identity::from_str`), collected short-circuiting into a `Result`, with a
failed collection falling back to the empty list (`unwrap_or_default`). -/
def extract_sans (parse : String → Option Identity) (cert : X509) : List Identity :=
  (collectList
      (((cert.subject_alt_names.getD []).filterMap GeneralName.uri).map parse)).getD []

/-- Modelled from the spec, for comparison with `extract_sans`: each
URI-form SAN that fails to parse as an Identity is individually dropped
while the successfully parsed ones are kept. -/
def extract_sans_lenient (parse : String → Option Identity) (cert : X509) :
    List Identity :=
  ((cert.subject_alt_names.getD []).filterMap GeneralName.uri).filterMap parse

/-- Opaque engine error stack (`openssl ErrorStack`). -/
abbrev ErrorStack := Nat

/-- Opaque handshake-step error (`openssl ssl Error`). -/
abbrev SslErrorCode := Nat

/-- Opaque chain-validation result reason (`X509VerifyResult`). -/
abbrev X509VerifyResult := Nat

/-- Opaque peer address. -/
abbrev IpAddr := String

/-- Opaque `Ssl` session object handle. -/
abbrev Ssl := Nat

/-- Opaque raw TCP stream handle. -/
abbrev TcpStream := Nat

/-- `SslStream`: the raw stream wrapped by the TLS engine together with its
session object. -/
structure SslStream (S : Type) where
  ssl : Ssl
  inner : S
deriving DecidableEq

/-- `HandshakeError`, one constructor per source variant: `Ssl` carries the
original unwrapped stream, `Create` carries only the engine error, `Accept`
and `Connect` carry the wrapped stream. -/
inductive HandshakeError (S : Type) where
  | ssl (stream : S) (e : ErrorStack)
  | create (e : ErrorStack)
  | accept (stream : SslStream S) (e : SslErrorCode)
  | connect (stream : SslStream S) (e : SslErrorCode)
deriving DecidableEq

/-- The raw (unwrapped) stream recoverable from a handshake error value. -/
def HandshakeError.rawStream {S : Type} : HandshakeError S → Option S
  | .ssl s _ => Option.some s
  | _ => Option.none

/-- The wrapped stream recoverable from a handshake error value. -/
def HandshakeError.wrappedStream {S : Type} :
    HandshakeError S → Option (SslStream S)
  | .accept s _ => Option.some s
  | .connect s _ => Option.some s
  | _ => Option.none

/-- Discriminator for the stream-wrapping failure variant. -/
def HandshakeError.isCreate {S : Type} : HandshakeError S → Bool
  | .create _ => true
  | _ => false

/-- `tls::Error` (the configuration-error type of the module). -/
inductive Error where
  | sslError (e : ErrorStack)
  | invalidRootCert (e : ErrorStack)
  | invalidUri (e : Nat)
deriving DecidableEq

/-- `TlsError`, one constructor per source variant; the stream type of the
embedded handshake error is fixed to `TcpStream` as in the source. -/
inductive TlsError where
  | handshake (e : HandshakeError TcpStream)
  | verification (r : X509VerifyResult)
  | certificateLookup (a : IpAddr)
  | signingError (e : Nat)
  | sanError (expected : Identity) (got : List Identity)
  | exDataError
  | peerCertError
  | sslError (e : Error)
deriving DecidableEq

/-- The verification policy `Verifier`: either no identity check, or exactly
one allowed identity. -/
inductive Verifier where
  | none
  | san (id : Identity)
deriving DecidableEq

/-- Model of `X509StoreContextRef`: the presented chain handle (possibly
unavailable) and the engine's own chain-validation error reason. -/
structure X509StoreContextRef where
  chain : Option (List X509)
  error : X509VerifyResult
deriving DecidableEq

/-- `verify_san` on a leaf certificate: succeed iff the required identity
occurs (by value equality) in the parsed SAN set, otherwise `SanError`
carrying the expected identity and the parsed list. -/
def X509.verify_san (parse : String → Option Identity) (cert : X509)
    (identity : Identity) : Except TlsError Unit :=
  let sans := extract_sans parse cert
  match sans.find? (fun id => decide (id = identity)) with
  | Option.some _ => Except.ok ()
  | Option.none => Except.error (TlsError.sanError identity sans)

/-- `Verifier::base_verifier`: if the engine's own chain validation failed,
fail with the engine's reason. -/
def Verifier.base_verifier (verified : Bool) (ctx : X509StoreContextRef) :
    Except TlsError Unit :=
  if !verified then Except.error (TlsError.verification ctx.error) else Except.ok ()

/-- `Verifier::verifiy_san` (source spelling): no-op for the anonymous
policy; otherwise take the presented chain (`ExDataError` if the handle is
unavailable), its first certificate (`PeerCertError` if absent) and check
its SAN set. -/
def Verifier.verifiy_san (parse : String → Option Identity) (v : Verifier)
    (ctx : X509StoreContextRef) : Except TlsError Unit :=
  match v with
  | Verifier.none => Except.ok ()
  | Verifier.san identity =>
    match ctx.chain with
    | Option.none => Except.error TlsError.exDataError
    | Option.some certs =>
      match certs.head? with
      | Option.none => Except.error TlsError.peerCertError
      | Option.some cert => cert.verify_san parse identity

/-- `Verifier::verify`: baseline chain validation first (`?`), then the SAN
policy. -/
def Verifier.verify (parse : String → Option Identity) (v : Verifier)
    (verified : Bool) (ctx : X509StoreContextRef) : Except TlsError Unit :=
  match Verifier.base_verifier verified ctx with
  | Except.error e => Except.error e
  | Except.ok _ => v.verifiy_san parse ctx

/-- `Verifier::callback`: the boolean acceptance signal handed back to the
engine — true exactly when `verify` succeeds. -/
def Verifier.callback (parse : String → Option Identity) (v : Verifier)
    (verified : Bool) (ctx : X509StoreContextRef) : Bool :=
  match v.verify parse verified ctx with
  | Except.ok _ => true
  | Except.error _ => false

/-- `SslVerifyMode` restricted to the two flag bits the code uses. -/
structure SslVerifyMode where
  peer : Bool
  failIfNoPeerCert : Bool
deriving DecidableEq

/-- `SslVerifyMode::NONE`: anonymous verification mode. -/
def SslVerifyMode.NONE : SslVerifyMode := { peer := false, failIfNoPeerCert := false }

/-- `Certs::verify_mode`: `PEER | FAIL_IF_NO_PEER_CERT`. -/
def Certs.verify_mode : SslVerifyMode := { peer := true, failIfNoPeerCert := true }

/-- The protocol versions the code pins. -/
inductive SslVersion where
  | tls1_2
  | tls1_3
deriving DecidableEq

/-- The ALPN identifiers the code can set. -/
inductive Alpn where
  | H2
deriving DecidableEq

/-- `Alpn::encode`: the wire bytes of `b"\x02h2"`. -/
def Alpn.encode : Alpn → List Nat
  | .H2 => [2, 104, 50]

/-- Model of `SslContextBuilder`: the configuration state this module sets
on the engine's context builder. -/
structure SslContextBuilder where
  asyncMode : Bool
  alpn : List Nat
  minProto : Option SslVersion
  maxProto : Option SslVersion
  privateKey : Option PKey
  certificate : Option X509
  extraChainCerts : List X509
  certStore : List X509
  verifyMode : SslVerifyMode
  verifier : Verifier
deriving DecidableEq

/-- A fresh engine context builder with nothing configured yet by this
module (engine-internal defaults such as cipher lists are out of scope). -/
def SslContextBuilder.fresh : SslContextBuilder :=
  { asyncMode := false, alpn := [], minProto := Option.none
    maxProto := Option.none, privateKey := Option.none
    certificate := Option.none, extraChainCerts := [], certStore := []
    verifyMode := SslVerifyMode.NONE, verifier := Verifier.none }

/-- The server-role template builder (`SslAcceptor::mozilla_intermediate_v5`). -/
def SslAcceptor.mozilla_intermediate_v5 : SslContextBuilder := SslContextBuilder.fresh

/-- The client-role template builder (`SslConnector::builder`). -/
def SslConnector.builder : SslContextBuilder := SslContextBuilder.fresh

/-- `Certs::setup_ctx`: async mode, ALPN pinned to h2, TLS 1.3 as both
minimum and maximum version, private key and leaf certificate installed,
chain entries before the last added as sent intermediates, every chain
entry added to the local trust store, `check_private_key` (a configuration
error when the key does not match the leaf certificate's public key), and
the default verification callback installed: peer-with-required-certificate
mode with the anonymous verifier. -/
def Certs.setup_ctx (c : Certs) (conn : SslContextBuilder) :
    Except Error SslContextBuilder :=
  let conn := { conn with
    asyncMode := true
    alpn := Alpn.H2.encode
    minProto := Option.some SslVersion.tls1_3
    maxProto := Option.some SslVersion.tls1_3
    privateKey := Option.some c.key
    certificate := Option.some c.cert.x509
    extraChainCerts :=
      conn.extraChainCerts ++ c.chain.dropLast.map (fun (z : ZtunnelCert) => z.x509)
    certStore := conn.certStore ++ c.chain.map (fun (z : ZtunnelCert) => z.x509) }
  if c.key.pubDer = c.cert.x509.pubkeyDer then
    Except.ok { conn with verifyMode := Certs.verify_mode, verifier := Verifier.none }
  else
    Except.error (Error.sslError 0)

/-- `Certs::mtls_acceptor`: the mTLS server context is the plain
`setup_ctx` result (which installed peer mode with required certificate). -/
def Certs.mtls_acceptor (c : Certs) : Except Error SslContextBuilder :=
  c.setup_ctx SslAcceptor.mozilla_intermediate_v5

/-- `Certs::acceptor`: the plain server context overrides the verification
callback with anonymous mode and the anonymous verifier. -/
def Certs.acceptor (c : Certs) : Except Error SslContextBuilder :=
  (c.setup_ctx SslAcceptor.mozilla_intermediate_v5).map
    (fun conn =>
      { conn with verifyMode := SslVerifyMode.NONE, verifier := Verifier.none })

/-- `Certs::connector`: the client context keeps the `setup_ctx` callback,
and overrides it with the SAN verifier (same verify mode) exactly when a
destination identity is supplied. -/
def Certs.connector (c : Certs) (dest_id : Option Identity) :
    Except Error SslContextBuilder :=
  (c.setup_ctx SslConnector.builder).map
    (fun conn =>
      match dest_id with
      | Option.some id =>
        { conn with verifyMode := Certs.verify_mode, verifier := Verifier.san id }
      | Option.none => conn)

/-- Extract the built context of a successful construction (fresh builder
as the irrelevant fallback), for concrete witnesses. -/
def getOk (e : Except Error SslContextBuilder) : SslContextBuilder :=
  match e with
  | Except.ok v => v
  | Except.error _ => SslContextBuilder.fresh

/-- A concrete Identity-parsing capability for witnesses: accepts exactly
the two SPIFFE-style URIs used in the examples. -/
def parse0 : String → Option Identity := fun s =>
  if s = "spiffe://cluster.local/ns/default/sa/foo" ∨ s = "spiffe://other" then
    Option.some (Identity.mk s)
  else
    Option.none

/-- The example identity accepted by `parse0`. -/
def idFoo : Identity := Identity.mk "spiffe://cluster.local/ns/default/sa/foo"

/-- A second example identity accepted by `parse0`. -/
def idBar : Identity := Identity.mk "spiffe://other"

/-- A leaf certificate whose SAN set mixes a non-identity URI SAN with an
identity URI SAN and a DNS SAN. -/
def sanCertMixed : X509 :=
  { der := [7], pem := [8], pubkeyDer := [3]
    subject_alt_names := Option.some
      [GeneralName.uriName "not-an-identity",
        GeneralName.uriName "spiffe://cluster.local/ns/default/sa/foo",
        GeneralName.dnsName "example.com"]
    notBeforeAsn1 := 0, notAfterAsn1 := 0 }

/-- A leaf certificate whose URI SANs all parse under `parse0`. -/
def sanCertGood : X509 :=
  { der := [11], pem := [12], pubkeyDer := [3]
    subject_alt_names := Option.some
      [GeneralName.uriName "spiffe://cluster.local/ns/default/sa/foo",
        GeneralName.dnsName "example.com"]
    notBeforeAsn1 := 0, notAfterAsn1 := 0 }

/-- A store context whose chain handle is unavailable. -/
def ctxNoChain : X509StoreContextRef := { chain := Option.none, error := 42 }

/-- A store context with an available but empty presented chain. -/
def ctxEmptyChain : X509StoreContextRef := { chain := Option.some [], error := 42 }

/-- A store context presenting the good leaf certificate. -/
def ctxGood : X509StoreContextRef :=
  { chain := Option.some [sanCertGood], error := 42 }

/-- A concrete example certificate handle for witnesses. -/
def exX509 : X509 :=
  { der := [1], pem := [2], pubkeyDer := [3]
    subject_alt_names := Option.none, notBeforeAsn1 := 0, notAfterAsn1 := 0 }

/-- A concrete example private key for witnesses. -/
def exKey : PKey := { der := [9], pubDer := [3] }

/-- A concrete example bundle with the given validity window and an empty
chain, for witnesses about the rotation arithmetic. -/
def mkCerts (nb na : Nat) : Certs :=
  { cert := { x509 := exX509, not_before := nb, not_after := na }
    chain := [], key := exKey }

/-- A second, distinct example certificate handle (different encodings). -/
def exX509b : X509 :=
  { der := [4], pem := [5], pubkeyDer := [6]
    subject_alt_names := Option.none, notBeforeAsn1 := 1, notAfterAsn1 := 2 }

/-- Example wrapped certificate. -/
def exZCert : ZtunnelCert := { x509 := exX509, not_before := 0, not_after := 10 }

/-- A second, distinct example wrapped certificate. -/
def exZCertb : ZtunnelCert := { x509 := exX509b, not_before := 3, not_after := 7 }

/-- Example bundle whose chain has two entries (an intermediate and the
root), for witnesses about the chain accessors. -/
def exCertsChain : Certs :=
  { cert := exZCert, chain := [exZCert, exZCertb], key := exKey }

/-- The outcome of the engine steps of one handshake attempt: the
session-object allocation (`Ssl::new` on the accept path, `into_ssl` on the
connect path), the stream wrapping (`SslStream::new`, which consumes the
raw stream), and the asynchronous handshake step (`accept()`/`connect()`). -/
structure EngineOutcome where
  intoSsl : Except ErrorStack Ssl
  createErr : Option ErrorStack
  handshakeErr : Option SslErrorCode

/-- Model of the `connect` routine: a session-object allocation failure
returns `Ssl` carrying the original stream; a wrapping failure returns
`Create` (the stream was consumed by the failed `SslStream::new`); a failed
handshake step returns `Connect` carrying the wrapped stream. -/
def connect (eng : EngineOutcome) (stream : TcpStream) :
    Except (HandshakeError TcpStream) (SslStream TcpStream) :=
  match eng.intoSsl with
  | Except.error e => Except.error (HandshakeError.ssl stream e)
  | Except.ok ssl =>
    match eng.createErr with
    | Option.some e => Except.error (HandshakeError.create e)
    | Option.none =>
      match eng.handshakeErr with
      | Option.some e => Except.error (HandshakeError.connect ⟨ssl, stream⟩ e)
      | Option.none => Except.ok ⟨ssl, stream⟩

/-- Model of `TlsAcceptor::accept`: certificate resolution first (its error
passes through as-is), then the same step structure as `connect` with the
accept-role variants, wrapped in `TlsError::Handshake`. -/
def TlsAcceptor.accept (fetchRes : Except TlsError SslContextBuilder)
    (eng : EngineOutcome) (stream : TcpStream) :
    Except TlsError (SslStream TcpStream) :=
  match fetchRes with
  | Except.error e => Except.error e
  | Except.ok _ =>
    match eng.intoSsl with
    | Except.error e =>
      Except.error (TlsError.handshake (HandshakeError.ssl stream e))
    | Except.ok ssl =>
      match eng.createErr with
      | Option.some e => Except.error (TlsError.handshake (HandshakeError.create e))
      | Option.none =>
        match eng.handshakeErr with
        | Option.some e =>
          Except.error (TlsError.handshake (HandshakeError.accept ⟨ssl, stream⟩ e))
        | Option.none => Except.ok ⟨ssl, stream⟩

/-- Which stream handle each handshake-error variant preserves: the
allocation failure carries the original unwrapped stream, the post-wrap
failures carry a wrapped stream whose inner transport is the original one,
and the wrapping failure is exempt. -/
def errStreams (stream : TcpStream) (e : HandshakeError TcpStream) : Prop :=
  match e with
  | HandshakeError.ssl s _ => s = stream
  | HandshakeError.create _ => True
  | HandshakeError.accept w _ => w.inner = stream
  | HandshakeError.connect w _ => w.inner = stream

/-- `TestIdentity`: an identity or a raw network address. -/
inductive TestIdentity where
  | identity (i : Identity)
  | ip (a : IpAddr)
deriving DecidableEq

/-- The embedded test private key fixture (`key.pem`), modelled as a
concrete handle. -/
def TEST_PKEY_key : PKey := { der := [21, 1], pubDer := [21, 2] }

/-- The embedded test root certificate fixture (`root-cert.pem`). -/
def TEST_ROOT_cert : X509 :=
  { der := [22, 1], pem := [22, 2], pubkeyDer := [22, 3]
    subject_alt_names := Option.none, notBeforeAsn1 := 0, notAfterAsn1 := 0 }

/-- The embedded test root key fixture (`ca-key.pem`). -/
def TEST_ROOT_KEY_key : PKey := { der := [23, 1], pubDer := [22, 3] }

/-- Codepoint bytes of a string, for the modelled encodings. -/
def strBytes (s : String) : List Nat := s.data.map Char.toNat

/-- Modelled encoding of one SAN entry, tagged by kind. -/
def encodeGeneralName : GeneralName → List Nat
  | .uriName u => 6 :: strBytes u
  | .ipName a => 7 :: strBytes a
  | .dnsName d => 2 :: strBytes d

/-- Modelled to-be-signed certificate content: a deterministic function of
the builder inputs (serial, SAN, validity bounds, public key, issuer). -/
def x509_tbs (serial : List Nat) (san : GeneralName) (nbAsn naAsn : Nat)
    (pubkey : List Nat) (issuer : List Nat) : List Nat :=
  serial ++ encodeGeneralName san ++ [nbAsn, naAsn] ++ pubkey ++ issuer

/-- Modelled signature: a deterministic function of the signing key and the
to-be-signed content (the engine's signing primitive is an external
capability; the spec's deterministic-generation contract requires it to be
a function of its inputs). -/
def signBytes (key : PKey) (tbs : List Nat) : List Nat := key.der ++ tbs

/-- The pure part of `generate_test_certs_at` after the serial bytes have
been drawn: mask the top bit of the first serial byte, build the SAN from
the identity (URI form) or address (IP form), build and sign the
certificate with the test CA, and override the wrapper's timestamps with
the exact sub-second arguments. -/
def build_test_cert (data : List Nat) (id : TestIdentity)
    (not_before not_after : Nat) : Certs :=
  let key := TEST_PKEY_key
  let nbAsn := system_time_to_asn1_time not_before
  let naAsn := system_time_to_asn1_time not_after
  let serial :=
    match data with
    | [] => []
    | b :: rest => (b &&& 127) :: rest
  let san :=
    match id with
    | TestIdentity.identity i => GeneralName.uriName i.uri
    | TestIdentity.ip a => GeneralName.ipName a
  let tbs := x509_tbs serial san nbAsn naAsn key.pubDer (strBytes "cluster.local")
  let sig := signBytes TEST_ROOT_KEY_key tbs
  let x : X509 :=
    { der := tbs ++ sig
      pem := 0 :: (tbs ++ sig)
      pubkeyDer := key.pubDer
      subject_alt_names := Option.some [san]
      notBeforeAsn1 := nbAsn
      notAfterAsn1 := naAsn }
  let zcert := ZtunnelCert.new x
  { cert := { zcert with not_before := not_before, not_after := not_after }
    key := key
    chain := [ZtunnelCert.new TEST_ROOT_cert] }

/-- Model of `generate_test_certs_at`, parametric in the explicit RNG type
`R` with step function `fill` (`SmallRng::fill_bytes`) and the ambient
process RNG type `A` with step `ambFill` (`rand::thread_rng`, consulted
only when no explicit RNG is supplied).  Returns the bundle with the
advanced explicit (if supplied) and ambient RNG states. -/
def generate_test_certs_at {R A : Type} (fill : R → List Nat × R)
    (ambFill : A → List Nat × A) (id : TestIdentity)
    (not_before not_after : Nat) (rng : Option R) (ambient : A) :
    Certs × Option R × A :=
  match rng with
  | Option.none =>
    (build_test_cert (ambFill ambient).1 id not_before not_after,
      Option.none, (ambFill ambient).2)
  | Option.some r =>
    (build_test_cert (fill r).1 id not_before not_after,
      Option.some (fill r).2, ambient)

/-- `mock::CertGenerator`: deterministic test certificate generator holding
a seeded RNG state. -/
structure CertGenerator (R : Type) where
  rng : R

/-- `CertGenerator::new`, parametric in the seeding function
(`SmallRng::seed_from_u64`). -/
def CertGenerator.new {R : Type} (seed_from_u64 : Nat → R) (seed : Nat) :
    CertGenerator R :=
  { rng := seed_from_u64 seed }

/-- `CertGenerator::new_certs`: generate with this generator's own RNG,
threading its state; the ambient process RNG passes through untouched. -/
def CertGenerator.new_certs {R A : Type} (fill : R → List Nat × R)
    (ambFill : A → List Nat × A) (g : CertGenerator R) (id : TestIdentity)
    (not_before not_after : Nat) (ambient : A) :
    Certs × CertGenerator R × A :=
  match generate_test_certs_at fill ambFill id not_before not_after
      (Option.some g.rng) ambient with
  | (certs, r2, amb2) => (certs, { rng := r2.getD g.rng }, amb2)

/-- Run a generator over a call sequence of (identity, window) arguments,
collecting the produced bundles and threading both RNG states. -/
def runGenerator {R A : Type} (fill : R → List Nat × R)
    (ambFill : A → List Nat × A) :
    CertGenerator R → A → List (TestIdentity × Nat × Nat) → List Certs
  | _, _, [] => []
  | g, amb, (idv, nb, na) :: calls =>
    match CertGenerator.new_certs fill ambFill g idv nb na amb with
    | (c, g2, amb2) => c :: runGenerator fill ambFill g2 amb2 calls

/-- The built mTLS server context for the example bundle. -/
def exCtxMtls : SslContextBuilder := getOk (Certs.mtls_acceptor exCertsChain)

/-- The built plain server context for the example bundle. -/
def exCtxPlain : SslContextBuilder := getOk (Certs.acceptor exCertsChain)

/-- The built client context for the example bundle, no destination
identity. -/
def exCtxConnNone : SslContextBuilder :=
  getOk (Certs.connector exCertsChain Option.none)

/-- The built client context for the example bundle, pinned to the example
identity. -/
def exCtxConnSan : SslContextBuilder :=
  getOk (Certs.connector exCertsChain (Option.some idFoo))

/-!  Theorems. -/

/-- Claim C6: for every certificate bundle, refresh_at() equals
not_before + (not_after - not_before)/2 when the validity window is
non-degenerate, and equals not_after for every degenerate window
(not_after <= not_before). -/
theorem c6_refresh_at (c : Certs) :
    (c.cert.not_before < c.cert.not_after →
      c.refresh_at = c.cert.not_before + (c.cert.not_after - c.cert.not_before) / 2) ∧
    (c.cert.not_after ≤ c.cert.not_before → c.refresh_at = c.cert.not_after) := by
  unfold Certs.refresh_at
  constructor
  · intro h
    rw [if_pos (Nat.le_of_lt h)]
  · intro h
    by_cases h2 : c.cert.not_before ≤ c.cert.not_after
    · rw [if_pos h2]
      have he : c.cert.not_after = c.cert.not_before := Nat.le_antisymm h h2
      rw [he]
      simp
    · rw [if_neg h2]

/-- Witness for C6 at the non-degenerate window (0, 10) and the degenerate
window (7, 3). -/
theorem c6_refresh_at_witness :
    Certs.refresh_at (mkCerts 0 10) = 5 ∧ Certs.refresh_at (mkCerts 7 3) = 3 :=
  ⟨by rw [(c6_refresh_at (mkCerts 0 10)).1 (by decide)]; decide,
   by rw [(c6_refresh_at (mkCerts 7 3)).2 (by decide)]; decide⟩

/-- Claim C5, counterexample: for the bundle with not_before = 10,
not_after = 30 (halflife 10), the value at time 5 is 0 but the value at the
later time 12 is 8, so duration-until-refresh is not monotonically
non-increasing as wall-clock time advances. -/
theorem c5_counterexample :
    (5 : Nat) ≤ 12 ∧
    Certs.get_duration_until_refresh (mkCerts 10 30) 5 = 0 ∧
    Certs.get_duration_until_refresh (mkCerts 10 30) 12 = 8 ∧
    ¬ (Certs.get_duration_until_refresh (mkCerts 10 30) 12 ≤
        Certs.get_duration_until_refresh (mkCerts 10 30) 5) := by
  decide

/-- Claim C5 as amended: for a fixed bundle, duration-until-refresh is
monotonically non-increasing over times at or after not_before; it is
exactly zero whenever now >= not_before + halflife; and it is also zero
(refresh as soon as possible, never negative) whenever now precedes
not_before — which is what breaks monotonicity across not_before. -/
theorem c5_amended (c : Certs) (t1 t2 : Nat) :
    (c.cert.not_before ≤ t1 → t1 ≤ t2 →
      c.get_duration_until_refresh t2 ≤ c.get_duration_until_refresh t1) ∧
    (c.cert.not_before + c.halflife ≤ t2 → c.get_duration_until_refresh t2 = 0) ∧
    (t2 < c.cert.not_before → c.get_duration_until_refresh t2 = 0) := by
  unfold Certs.get_duration_until_refresh
  refine ⟨?_, ?_, ?_⟩
  · intro h1 h12
    have h2 : c.cert.not_before ≤ t2 := le_trans h1 h12
    rw [if_pos h1, if_pos h2]
    omega
  · intro h
    have h2 : c.cert.not_before ≤ t2 := le_trans (Nat.le_add_right _ _) h
    rw [if_pos h2]
    omega
  · intro h
    rw [if_neg (by omega)]
    omega

/-- Witness for the amended C5 on the bundle (10, 30): monotone between
times 12 and 25, zero at 25 (past not_before + halflife = 20), zero at 4
(before not_before). -/
theorem c5_amended_witness :
    (Certs.get_duration_until_refresh (mkCerts 10 30) 25 ≤
      Certs.get_duration_until_refresh (mkCerts 10 30) 12) ∧
    Certs.get_duration_until_refresh (mkCerts 10 30) 25 = 0 ∧
    Certs.get_duration_until_refresh (mkCerts 10 30) 4 = 0 :=
  ⟨(c5_amended (mkCerts 10 30) 12 25).1 (by decide) (by decide),
   (c5_amended (mkCerts 10 30) 12 25).2.1 (by decide),
   (c5_amended (mkCerts 10 30) 12 4).2.2 (by decide)⟩

/-- Claim C7: bundle equality holds iff the leaf certificate encodings, the
private key encodings and the validity windows coincide; in particular two
bundles differing only in their trust-chain contents are equal. -/
theorem c7_certs_eq :
    (∀ a b : Certs, Certs.eq a b = true ↔
      (a.cert.x509.der = b.cert.x509.der ∧ a.key.der = b.key.der ∧
        a.cert.not_before = b.cert.not_before ∧ a.cert.not_after = b.cert.not_after)) ∧
    (∀ (c : Certs) (ch : List ZtunnelCert), Certs.eq c { c with chain := ch } = true) := by
  constructor
  · intro a b
    simp only [Certs.eq, Bool.and_eq_true, beq_iff_eq]
    tauto
  · intro c ch
    simp [Certs.eq]

/-- Witness for C7: the example bundle compares equal to itself with its
chain replaced by the empty chain. -/
theorem c7_certs_eq_witness :
    Certs.eq exCertsChain { exCertsChain with chain := [] } = true :=
  c7_certs_eq.2 exCertsChain []

/-- Claim C8: for a bundle with a non-empty chain, the single-entry accessor
returns the PEM encoding of the first chain entry only, while iter_chain
yields every chain entry in order, including the final root entry. -/
theorem c8_chain_views (c : Certs) (z : ZtunnelCert) (zs : List ZtunnelCert)
    (h : c.chain = z :: zs) :
    c.chain_pem = Option.some z.x509.pem ∧
    c.iter_chain = z.x509 :: zs.map (fun w => w.x509) := by
  unfold Certs.chain_pem Certs.iter_chain
  rw [h]
  exact ⟨rfl, rfl⟩

/-- Witness for C8 on a concrete two-entry chain. -/
theorem c8_chain_views_witness :
    Certs.chain_pem exCertsChain = Option.some exZCert.x509.pem ∧
    Certs.iter_chain exCertsChain = exZCert.x509 :: [exZCertb].map (fun w => w.x509) :=
  c8_chain_views exCertsChain exZCert [exZCertb] rfl

/-- Claim C10: the single-entry chain accessor indexes the first chain
element unguarded; under the non-empty-chain precondition the access is in
bounds and returns normally, while for an empty chain the model yields
`none` (the out-of-bounds panic), never the declared error value. -/
theorem c10_chain_index (c : Certs) :
    (c.chain ≠ [] → (c.chain_pem).isSome = true) ∧
    (c.chain = [] → c.chain_pem = Option.none) := by
  unfold Certs.chain_pem
  constructor
  · intro h
    cases hc : c.chain with
    | nil => exact absurd hc h
    | cons z zs => rfl
  · intro h
    rw [h]
    rfl

/-- Witness for C10: a two-entry chain is in bounds; the empty chain
panics (modelled `none`). -/
theorem c10_chain_index_witness :
    (Certs.chain_pem exCertsChain).isSome = true ∧
    Certs.chain_pem (mkCerts 0 0) = Option.none :=
  ⟨(c10_chain_index exCertsChain).1 (by decide),
   (c10_chain_index (mkCerts 0 0)).2 rfl⟩

/-- If every element maps to a success, the short-circuiting collection
succeeds with exactly the mapped elements. -/
theorem collectList_map_all_some {α β : Type} (f : α → Option β) :
    ∀ l : List α, (∀ u ∈ l, (f u).isSome) →
      collectList (l.map f) = Option.some (l.filterMap f)
  | [], _ => rfl
  | a :: rest, h => by
    have ha : (f a).isSome := h a (List.mem_cons_self a rest)
    cases hfa : f a with
    | none => rw [hfa] at ha; simp at ha
    | some b =>
      have ih :=
        collectList_map_all_some f rest (fun u hu => h u (List.mem_cons_of_mem a hu))
      simp [collectList, hfa, ih, List.filterMap_cons]

/-- If some element maps to a failure, the short-circuiting collection
fails. -/
theorem collectList_map_has_none {α β : Type} (f : α → Option β) :
    ∀ l : List α, (∃ u ∈ l, f u = Option.none) →
      collectList (l.map f) = Option.none
  | a :: rest, h => by
    rcases h with ⟨u, hu, hfu⟩
    rcases List.mem_cons.mp hu with h1 | h2
    · subst h1
      simp [collectList, hfu]
    · cases hfa : f a with
      | none => simp [collectList, hfa]
      | some b =>
        have ih := collectList_map_has_none f rest ⟨u, h2, hfu⟩
        simp [collectList, hfa, ih]

/-- Claim C2, counterexample: with a SAN set mixing a non-identity URI SAN
with a parsable identity SAN, extract_sans discards the whole set and
returns the empty list — the successfully parsed SAN is not kept, contrary
to the per-SAN leniency the claim states. -/
theorem c2_counterexample :
    extract_sans parse0 sanCertMixed = [] ∧
    extract_sans_lenient parse0 sanCertMixed = [idFoo] ∧
    extract_sans parse0 sanCertMixed ≠ extract_sans_lenient parse0 sanCertMixed := by
  refine ⟨rfl, ?_, ?_⟩ <;> decide

/-- Claim C2 as amended: if every URI-form SAN of the leaf parses as an
Identity, the parsed SAN set keeps them all; but if any single URI-form SAN
fails to parse, the entire parsed SAN set is discarded and the result is
empty — a non-identity URI SAN causes all other SANs to be dropped. -/
theorem c2_amended (parse : String → Option Identity) (cert : X509) :
    ((∀ u ∈ (cert.subject_alt_names.getD []).filterMap GeneralName.uri,
        (parse u).isSome) →
      extract_sans parse cert = extract_sans_lenient parse cert) ∧
    ((∃ u ∈ (cert.subject_alt_names.getD []).filterMap GeneralName.uri,
        parse u = Option.none) →
      extract_sans parse cert = []) := by
  constructor
  · intro h
    unfold extract_sans extract_sans_lenient
    rw [collectList_map_all_some parse _ h]
    rfl
  · intro h
    unfold extract_sans
    rw [collectList_map_has_none parse _ h]
    rfl

/-- Witness for the amended C2: the all-parsable leaf keeps its SAN;
the mixed leaf collapses to the empty set. -/
theorem c2_amended_witness :
    extract_sans parse0 sanCertGood = extract_sans_lenient parse0 sanCertGood ∧
    extract_sans parse0 sanCertMixed = [] :=
  ⟨(c2_amended parse0 sanCertGood).1 (by decide),
   (c2_amended parse0 sanCertMixed).2 (by decide)⟩

/-- Claim C3: the verification callback fails with the engine reason when
chain validation failed (no identity check); succeeds for the anonymous
policy; and for the identity policy fails with ExDataError when the chain
handle is unavailable, PeerCertError when the chain has no leaf, succeeds
iff the configured identity is in the parsed SAN set, and otherwise fails
with SanError carrying the expected identity and the observed parsed SAN
list. -/
theorem c3_verify (parse : String → Option Identity) (v : Verifier)
    (verified : Bool) (ctx : X509StoreContextRef) :
    (verified = false →
      Verifier.verify parse v verified ctx =
        Except.error (TlsError.verification ctx.error)) ∧
    (verified = true → v = Verifier.none →
      Verifier.verify parse v verified ctx = Except.ok ()) ∧
    (∀ id, verified = true → v = Verifier.san id →
      (ctx.chain = Option.none →
        Verifier.verify parse v verified ctx = Except.error TlsError.exDataError) ∧
      (ctx.chain = Option.some [] →
        Verifier.verify parse v verified ctx = Except.error TlsError.peerCertError) ∧
      (∀ leaf rest, ctx.chain = Option.some (leaf :: rest) →
        (id ∈ extract_sans parse leaf →
          Verifier.verify parse v verified ctx = Except.ok ()) ∧
        (id ∉ extract_sans parse leaf →
          Verifier.verify parse v verified ctx =
            Except.error (TlsError.sanError id (extract_sans parse leaf))))) := by
  refine ⟨?_, ?_, ?_⟩
  · intro hv
    subst hv
    rfl
  · intro hv hn
    subst hv; subst hn
    rfl
  · intro id hv hs
    subst hv; subst hs
    refine ⟨?_, ?_, ?_⟩
    · intro hc
      simp [Verifier.verify, Verifier.base_verifier, Verifier.verifiy_san, hc]
    · intro hc
      simp [Verifier.verify, Verifier.base_verifier, Verifier.verifiy_san, hc]
    · intro leaf rest hc
      constructor
      · intro hmem
        cases hf : (extract_sans parse leaf).find? (fun x => decide (x = id)) with
        | none =>
          rw [List.find?_eq_none] at hf
          have hx := hf id hmem
          simp at hx
        | some w =>
          simp [Verifier.verify, Verifier.base_verifier, Verifier.verifiy_san, hc,
            X509.verify_san, hf]
      · intro hmem
        cases hf : (extract_sans parse leaf).find? (fun x => decide (x = id)) with
        | none =>
          simp [Verifier.verify, Verifier.base_verifier, Verifier.verifiy_san, hc,
            X509.verify_san, hf]
        | some w =>
          have := List.find?_some hf
          have hw : w = id := by simpa using this
          have hwmem := List.mem_of_find?_eq_some hf
          rw [hw] at hwmem
          exact absurd hwmem hmem

/-- Witness for C3, exercising every branch at concrete inputs: engine
failure, anonymous success, unavailable chain handle, empty chain, SAN
match, and SAN mismatch with the observed list attached. -/
theorem c3_verify_witness :
    Verifier.verify parse0 (Verifier.san idFoo) false ctxGood =
      Except.error (TlsError.verification ctxGood.error) ∧
    Verifier.verify parse0 Verifier.none true ctxGood = Except.ok () ∧
    Verifier.verify parse0 (Verifier.san idFoo) true ctxNoChain =
      Except.error TlsError.exDataError ∧
    Verifier.verify parse0 (Verifier.san idFoo) true ctxEmptyChain =
      Except.error TlsError.peerCertError ∧
    Verifier.verify parse0 (Verifier.san idFoo) true ctxGood = Except.ok () ∧
    Verifier.verify parse0 (Verifier.san idBar) true ctxGood =
      Except.error (TlsError.sanError idBar (extract_sans parse0 sanCertGood)) :=
  ⟨(c3_verify parse0 (Verifier.san idFoo) false ctxGood).1 rfl,
   (c3_verify parse0 Verifier.none true ctxGood).2.1 rfl rfl,
   ((c3_verify parse0 (Verifier.san idFoo) true ctxNoChain).2.2 idFoo rfl rfl).1 rfl,
   ((c3_verify parse0 (Verifier.san idFoo) true ctxEmptyChain).2.2 idFoo rfl rfl).2.1 rfl,
   (((c3_verify parse0 (Verifier.san idFoo) true ctxGood).2.2 idFoo rfl rfl).2.2
      sanCertGood [] rfl).1 (by decide),
   (((c3_verify parse0 (Verifier.san idBar) true ctxGood).2.2 idBar rfl rfl).2.2
      sanCertGood [] rfl).2 (by decide)⟩

/-- Claim C4: the mTLS server context requires the peer certificate
(peer mode with fail-if-no-peer-cert); the plain server context uses
anonymous verification mode with no SAN check while the trust store still
holds every chain entry; the client context always uses peer mode with a
required valid chain, and carries the SAN identity check exactly when a
destination identity was supplied. -/
theorem c4_verification_modes (c : Certs) :
    (∀ ctx, c.mtls_acceptor = Except.ok ctx →
      ctx.verifyMode = Certs.verify_mode ∧ ctx.verifyMode.failIfNoPeerCert = true ∧
        ctx.verifier = Verifier.none) ∧
    (∀ ctx, c.acceptor = Except.ok ctx →
      ctx.verifyMode = SslVerifyMode.NONE ∧ ctx.verifier = Verifier.none ∧
        ∀ z ∈ c.chain, z.x509 ∈ ctx.certStore) ∧
    (∀ ctx, c.connector Option.none = Except.ok ctx →
      ctx.verifyMode = Certs.verify_mode ∧ ctx.verifier = Verifier.none) ∧
    (∀ id ctx, c.connector (Option.some id) = Except.ok ctx →
      ctx.verifyMode = Certs.verify_mode ∧ ctx.verifier = Verifier.san id) := by
  by_cases hk : c.key.pubDer = c.cert.x509.pubkeyDer
  · refine ⟨?_, ?_, ?_, ?_⟩
    · intro ctx h
      unfold Certs.mtls_acceptor Certs.setup_ctx at h
      rw [if_pos hk] at h
      cases h
      exact ⟨rfl, rfl, rfl⟩
    · intro ctx h
      unfold Certs.acceptor Certs.setup_ctx at h
      rw [if_pos hk] at h
      simp only [Except.map] at h
      cases h
      refine ⟨rfl, rfl, ?_⟩
      intro z hz
      simp only []
      exact List.mem_append_right _ (List.mem_map_of_mem _ hz)
    · intro ctx h
      unfold Certs.connector Certs.setup_ctx at h
      rw [if_pos hk] at h
      simp only [Except.map] at h
      cases h
      exact ⟨rfl, rfl⟩
    · intro id ctx h
      unfold Certs.connector Certs.setup_ctx at h
      rw [if_pos hk] at h
      simp only [Except.map] at h
      cases h
      exact ⟨rfl, rfl⟩
  · refine ⟨?_, ?_, ?_, ?_⟩
    · intro ctx h
      unfold Certs.mtls_acceptor Certs.setup_ctx at h
      rw [if_neg hk] at h
      exact Except.noConfusion h
    · intro ctx h
      unfold Certs.acceptor Certs.setup_ctx at h
      rw [if_neg hk] at h
      exact Except.noConfusion h
    · intro ctx h
      unfold Certs.connector Certs.setup_ctx at h
      rw [if_neg hk] at h
      exact Except.noConfusion h
    · intro id ctx h
      unfold Certs.connector Certs.setup_ctx at h
      rw [if_neg hk] at h
      exact Except.noConfusion h

/-- Witness for C4 on the example bundle (whose key matches its leaf):
the four constructions succeed and show the claimed mode and verifier
composition, including the root chain entry kept in the plain server
context's trust store. -/
theorem c4_verification_modes_witness :
    exCtxMtls.verifyMode = Certs.verify_mode ∧
    exCtxPlain.verifyMode = SslVerifyMode.NONE ∧
    exZCertb.x509 ∈ exCtxPlain.certStore ∧
    exCtxConnNone.verifyMode = Certs.verify_mode ∧
    exCtxConnNone.verifier = Verifier.none ∧
    exCtxConnSan.verifyMode = Certs.verify_mode ∧
    exCtxConnSan.verifier = Verifier.san idFoo :=
  ⟨((c4_verification_modes exCertsChain).1 exCtxMtls rfl).1,
   ((c4_verification_modes exCertsChain).2.1 exCtxPlain rfl).1,
   ((c4_verification_modes exCertsChain).2.1 exCtxPlain rfl).2.2 exZCertb (by decide),
   ((c4_verification_modes exCertsChain).2.2.1 exCtxConnNone rfl).1,
   ((c4_verification_modes exCertsChain).2.2.1 exCtxConnNone rfl).2,
   ((c4_verification_modes exCertsChain).2.2.2 idFoo exCtxConnSan rfl).1,
   ((c4_verification_modes exCertsChain).2.2.2 idFoo exCtxConnSan rfl).2⟩

/-- Claim C1, counterexample: a handshake whose stream-wrapping step fails
produces the `Create` error variant, from which neither the original
unwrapped stream nor a wrapped stream is recoverable — so it is not the
case that exactly one of the two stream handles is recoverable in every
failure case. -/
theorem c1_counterexample :
    connect { intoSsl := Except.ok 0, createErr := Option.some 7
              handshakeErr := Option.none } 3 =
      Except.error (HandshakeError.create 7) ∧
    HandshakeError.rawStream (HandshakeError.create (S := TcpStream) 7) =
      Option.none ∧
    HandshakeError.wrappedStream (HandshakeError.create (S := TcpStream) 7) =
      Option.none ∧
    ¬ ((HandshakeError.rawStream
          (HandshakeError.create (S := TcpStream) 7)).isSome = true ∨
        (HandshakeError.wrappedStream
          (HandshakeError.create (S := TcpStream) 7)).isSome = true) := by
  exact ⟨rfl, rfl, rfl, by decide⟩

/-- Claim C1 as amended: for both roles, every failure after the raw stream
has been wrapped (`Accept`/`Connect`) carries the wrapped stream, whose
inner transport is the original one; the session-object allocation failure
(`Ssl`) carries the original unwrapped stream; but the stream-wrapping
failure (`Create`) carries neither handle — never are both handles
recoverable, and the two-handles-lost case is exactly the `Create`
variant. -/
theorem c1_amended (fetchCtx : SslContextBuilder) (eng : EngineOutcome)
    (stream : TcpStream) (e : HandshakeError TcpStream)
    (h : connect eng stream = Except.error e ∨
      TlsAcceptor.accept (Except.ok fetchCtx) eng stream =
        Except.error (TlsError.handshake e)) :
    errStreams stream e ∧
    (e.rawStream = Option.none ∨ e.wrappedStream = Option.none) ∧
    ((e.rawStream = Option.none ∧ e.wrappedStream = Option.none) ↔
      e.isCreate = true) := by
  obtain ⟨is, ce, he⟩ := eng
  rcases h with h | h
  · cases is with
    | error er =>
      simp [connect] at h
      subst h
      exact ⟨rfl, Or.inr rfl, by simp [HandshakeError.rawStream,
        HandshakeError.wrappedStream, HandshakeError.isCreate]⟩
    | ok ssl =>
      cases ce with
      | some er =>
        simp [connect] at h
        subst h
        exact ⟨trivial, Or.inl rfl, by simp [HandshakeError.rawStream,
          HandshakeError.wrappedStream, HandshakeError.isCreate]⟩
      | none =>
        cases he with
        | some er =>
          simp [connect] at h
          subst h
          exact ⟨rfl, Or.inl rfl, by simp [HandshakeError.rawStream,
            HandshakeError.wrappedStream, HandshakeError.isCreate]⟩
        | none => simp [connect] at h
  · cases is with
    | error er =>
      simp [TlsAcceptor.accept] at h
      subst h
      exact ⟨rfl, Or.inr rfl, by simp [HandshakeError.rawStream,
        HandshakeError.wrappedStream, HandshakeError.isCreate]⟩
    | ok ssl =>
      cases ce with
      | some er =>
        simp [TlsAcceptor.accept] at h
        subst h
        exact ⟨trivial, Or.inl rfl, by simp [HandshakeError.rawStream,
          HandshakeError.wrappedStream, HandshakeError.isCreate]⟩
      | none =>
        cases he with
        | some er =>
          simp [TlsAcceptor.accept] at h
          subst h
          exact ⟨rfl, Or.inl rfl, by simp [HandshakeError.rawStream,
            HandshakeError.wrappedStream, HandshakeError.isCreate]⟩
        | none => simp [TlsAcceptor.accept] at h

/-- Witness for the amended C1 at a concrete connect-role allocation
failure: the error carries the original stream and no wrapped stream. -/
theorem c1_amended_witness :
    errStreams 3 (HandshakeError.ssl 3 5) ∧
    (HandshakeError.rawStream (HandshakeError.ssl (S := TcpStream) 3 5) =
        Option.none ∨
      HandshakeError.wrappedStream (HandshakeError.ssl (S := TcpStream) 3 5) =
        Option.none) ∧
    ((HandshakeError.rawStream (HandshakeError.ssl (S := TcpStream) 3 5) =
          Option.none ∧
        HandshakeError.wrappedStream (HandshakeError.ssl (S := TcpStream) 3 5) =
          Option.none) ↔
      HandshakeError.isCreate (HandshakeError.ssl (S := TcpStream) 3 5) = true) :=
  c1_amended SslContextBuilder.fresh
    { intoSsl := Except.error 5, createErr := Option.none
      handshakeErr := Option.none } 3 (HandshakeError.ssl 3 5) (Or.inl rfl)

/-- A generator run never consults the ambient process RNG: with the same
generator state and call sequence, runs under different ambient RNGs (even
of different types) produce the same bundles. -/
theorem runGenerator_ambient_independent {R A1 A2 : Type}
    (fill : R → List Nat × R) (ambFill1 : A1 → List Nat × A1)
    (ambFill2 : A2 → List Nat × A2) :
    ∀ (calls : List (TestIdentity × Nat × Nat)) (g : CertGenerator R)
      (amb1 : A1) (amb2 : A2),
      runGenerator fill ambFill1 g amb1 calls =
        runGenerator fill ambFill2 g amb2 calls
  | [], _, _, _ => rfl
  | (idv, nb, na) :: calls, g, amb1, amb2 => by
    show _ :: _ = _ :: _
    exact congrArg (List.cons _)
      (runGenerator_ambient_independent fill ambFill1 ambFill2 calls _ amb1 amb2)

/-- Claim C9: two mock certificate generators constructed with the same
seed (same seeding and RNG step functions — the fixed SmallRng algorithm),
invoked with the same sequence of identity and time-window arguments,
produce identical bundles (hence byte-identical certificate and key
encodings), regardless of the ambient process randomness available to each
run. -/
theorem c9_generator_deterministic {R A1 A2 : Type} (fill : R → List Nat × R)
    (ambFill1 : A1 → List Nat × A1) (ambFill2 : A2 → List Nat × A2)
    (amb1 : A1) (amb2 : A2) (seed_from_u64 : Nat → R) (seed : Nat)
    (calls : List (TestIdentity × Nat × Nat)) :
    runGenerator fill ambFill1 (CertGenerator.new seed_from_u64 seed) amb1 calls =
      runGenerator fill ambFill2 (CertGenerator.new seed_from_u64 seed) amb2 calls :=
  runGenerator_ambient_independent fill ambFill1 ambFill2 calls
    (CertGenerator.new seed_from_u64 seed) amb1 amb2

end Ztunnel
